import Mathlib

/-!
Shallow embedding of the `yellowstone-grpc-client` library
(src/yellowstone-grpc-client/src/lib.rs) in Lean 4, with theorems settling
the specification claims about it.

External collaborators (tonic transport, metadata values, the protobuf
message crate, the futures mpsc channel) are modelled at their interface
boundary; all logic of `lib.rs` itself (interceptor, builder, client
operations, subscription protocol) is translated directly from the source.
-/

set_option autoImplicit false

namespace YellowstoneClient

/-- Modelled from the spec: duration values used by the transport
configuration are opaque here; we represent them by a natural number of
nanoseconds. -/
abbrev Duration := Nat

/-- Modelled from the spec: TLS configuration for the transport collaborator
is an opaque record; only its identity matters to this layer. -/
structure ClientTlsConfig where
  id : Nat
deriving DecidableEq

/-- Modelled from the spec: a connected or lazily-connected transport handle
(`tonic::transport::Channel`), opaque to this layer; only its identity
matters. -/
structure Channel where
  id : Nat
deriving DecidableEq

/-- Modelled from the spec: an ASCII metadata (header) value
(`tonic::metadata::AsciiMetadataValue`), carrying the validated string. -/
structure AsciiMetadataValue where
  value : String
deriving DecidableEq

/-- Modelled from the spec: the error produced when a string cannot be
converted to an ASCII header value. -/
structure InvalidMetadataValue where
deriving DecidableEq

/-- Modelled from the spec: conversion of a token string into an ASCII
header value (the `TryInto<AsciiMetadataValue>` bound of the external tonic
collaborator). Per the spec the token "must be representable as an ASCII
header value": conversion succeeds exactly when every character of the
string is ASCII. -/
def AsciiMetadataValue.tryFrom (s : String) :
    Except InvalidMetadataValue AsciiMetadataValue :=
  if s.toList.all (fun c => c.toNat < 128) then
    Except.ok (AsciiMetadataValue.mk s)
  else
    Except.error InvalidMetadataValue.mk

/-- Length of the stored ASCII value, mirroring `AsciiMetadataValue::len`. -/
def AsciiMetadataValue.lenOf (v : AsciiMetadataValue) : Nat :=
  v.value.length

/-- Emptiness test, mirroring `AsciiMetadataValue::is_empty`. -/
def AsciiMetadataValue.isEmptyVal (v : AsciiMetadataValue) : Bool :=
  v.value.length == 0

/-- Modelled from the spec: request metadata is a key-value map of ASCII
header values; we represent it as an association list. -/
def Metadata := List (String × AsciiMetadataValue)

/-- Insertion into the metadata map, replacing any existing entry with the
same key, mirroring `MetadataMap::insert`. -/
def Metadata.insert (m : Metadata) (k : String) (v : AsciiMetadataValue) :
    Metadata :=
  (k, v) :: List.filter (fun p => p.1 != k) m

/-- Lookup in the metadata map, mirroring `MetadataMap::get`. -/
def Metadata.get (m : Metadata) (k : String) : Option AsciiMetadataValue :=
  List.lookup k m

/-- Modelled from the spec: an outgoing request at the interceptor hook
point (`tonic::Request<()>`): a unit message, a metadata map, and opaque
extensions whose identity we track to state frame conditions. -/
structure Request where
  message : Unit
  metadata : Metadata
  extensions : Nat

/-- Modelled from the spec: an RPC status error
(`tonic::Status`), opaque to this layer. -/
structure Status where
  code : Nat
  message : String
deriving DecidableEq

/-- The auth interceptor of the client library: holds the optional
configured token (field `x_token` of `InterceptorXToken`). -/
structure InterceptorXToken where
  x_token : Option AsciiMetadataValue
deriving DecidableEq

/-- The interceptor hook (`impl Interceptor for InterceptorXToken`): if a
token is configured, insert it under the key "x-token"; always returns
`Ok`. -/
def InterceptorXToken.call (i : InterceptorXToken) (request : Request) :
    Except Status Request :=
  match i.x_token with
  | some x_token =>
      Except.ok { request with
                  metadata := request.metadata.insert "x-token" x_token }
  | none => Except.ok request

/-- Modelled from the spec: the error of a failed enqueue on the producer
half of the mpsc channel (`futures::channel::mpsc::SendError`); for an
unbounded channel it can only report disconnection. -/
inductive SendError where
  | disconnected
deriving DecidableEq

/-- The client error type `GeyserGrpcClientError` of the source. -/
inductive GeyserGrpcClientError where
  | TonicStatus (s : Status)
  | SubscribeSendError (e : SendError)
deriving DecidableEq

/-- The builder error type `GeyserGrpcBuilderError` of the source. -/
inductive GeyserGrpcBuilderError where
  | MetadataValueError (e : InvalidMetadataValue)
  | InvalidXTokenLength (n : Nat)
  | TonicError
  | EmptyChannel
deriving DecidableEq

/-- Modelled from the spec: the transport endpoint configuration
(`tonic::transport::Endpoint`), accumulating the URI plus connection
settings; each configuration operation returns a new value with one field
changed. -/
structure Endpoint where
  uri : String
  connectTimeoutField : Option Duration := none
  timeoutField : Option Duration := none
  tlsField : Option ClientTlsConfig := none
  bufferSizeField : Option Nat := none
  http2AdaptiveWindowField : Option Bool := none
  http2KeepAliveIntervalField : Option Duration := none
  initialConnectionWindowSizeField : Option Nat := none
  initialStreamWindowSizeField : Option Nat := none
  keepAliveTimeoutField : Option Duration := none
  keepAliveWhileIdleField : Option Bool := none
  tcpKeepaliveField : Option Duration := none
  tcpNodelayField : Option Bool := none
deriving DecidableEq

/-- Modelled from the spec: `Endpoint::connect_timeout` of the transport
collaborator. -/
def Endpoint.connect_timeout (e : Endpoint) (dur : Duration) : Endpoint :=
  { e with connectTimeoutField := some dur }

/-- Modelled from the spec: `Endpoint::timeout` of the transport
collaborator. -/
def Endpoint.timeout (e : Endpoint) (dur : Duration) : Endpoint :=
  { e with timeoutField := some dur }

/-- Modelled from the spec: `Endpoint::tls_config` of the transport
collaborator; the fallibility of the tonic operation is kept in the type. -/
def Endpoint.tls_config (e : Endpoint) (cfg : ClientTlsConfig) :
    Except GeyserGrpcBuilderError Endpoint :=
  Except.ok { e with tlsField := some cfg }

/-- Modelled from the spec: `Endpoint::buffer_size` of the transport
collaborator. -/
def Endpoint.buffer_size (e : Endpoint) (sz : Option Nat) : Endpoint :=
  { e with bufferSizeField := sz }

/-- Modelled from the spec: `Endpoint::http2_adaptive_window`. -/
def Endpoint.http2_adaptive_window (e : Endpoint) (enabled : Bool) : Endpoint :=
  { e with http2AdaptiveWindowField := some enabled }

/-- Modelled from the spec: `Endpoint::http2_keep_alive_interval`. -/
def Endpoint.http2_keep_alive_interval (e : Endpoint) (interval : Duration) :
    Endpoint :=
  { e with http2KeepAliveIntervalField := some interval }

/-- Modelled from the spec: `Endpoint::initial_connection_window_size`. -/
def Endpoint.initial_connection_window_size (e : Endpoint) (sz : Option Nat) :
    Endpoint :=
  { e with initialConnectionWindowSizeField := sz }

/-- Modelled from the spec: `Endpoint::initial_stream_window_size`. -/
def Endpoint.initial_stream_window_size (e : Endpoint) (sz : Option Nat) :
    Endpoint :=
  { e with initialStreamWindowSizeField := sz }

/-- Modelled from the spec: `Endpoint::keep_alive_timeout`. -/
def Endpoint.keep_alive_timeout (e : Endpoint) (duration : Duration) :
    Endpoint :=
  { e with keepAliveTimeoutField := some duration }

/-- Modelled from the spec: `Endpoint::keep_alive_while_idle`. -/
def Endpoint.keep_alive_while_idle (e : Endpoint) (enabled : Bool) : Endpoint :=
  { e with keepAliveWhileIdleField := some enabled }

/-- Modelled from the spec: `Endpoint::tcp_keepalive`. -/
def Endpoint.tcp_keepalive (e : Endpoint) (keepalive : Option Duration) :
    Endpoint :=
  { e with tcpKeepaliveField := keepalive }

/-- Modelled from the spec: `Endpoint::tcp_nodelay`. -/
def Endpoint.tcp_nodelay (e : Endpoint) (enabled : Bool) : Endpoint :=
  { e with tcpNodelayField := some enabled }

/-- Modelled from the spec: a compression codec
(`tonic::codec::CompressionEncoding`). -/
inductive CompressionEncoding where
  | gzip
  | zstd
deriving DecidableEq

/-- The builder struct `GeyserGrpcBuilder` of the source: endpoint
configuration, optional transport handle, optional token, and stub
options. -/
structure GeyserGrpcBuilder where
  endpoint : Endpoint
  channel : Option Channel
  x_token : Option AsciiMetadataValue
  send_compressed : Option CompressionEncoding
  accept_compressed : Option CompressionEncoding
  max_decoding_message_size : Option Nat
  max_encoding_message_size : Option Nat
deriving DecidableEq

/-- The private constructor `GeyserGrpcBuilder::new`. -/
def GeyserGrpcBuilder.new (endpoint : Endpoint) : GeyserGrpcBuilder :=
  { endpoint := endpoint
    channel := none
    x_token := none
    send_compressed := none
    accept_compressed := none
    max_decoding_message_size := none
    max_encoding_message_size := none }

/-- The factory `GeyserGrpcBuilder::from_static`; URI parsing of
`from_shared` is a transport-collaborator concern, so we take the already
parsed endpoint form. -/
def GeyserGrpcBuilder.from_static (endpoint : String) : GeyserGrpcBuilder :=
  GeyserGrpcBuilder.new { uri := endpoint }

/-- The data-feed stub `GeyserClient<InterceptedService<Channel, F>>` as
assembled by `build`: the transport handle, the interceptor, and the four
stub-level options. -/
structure GeyserStub where
  channel : Channel
  interceptor : InterceptorXToken
  send_compressed : Option CompressionEncoding
  accept_compressed : Option CompressionEncoding
  max_decoding_message_size : Option Nat
  max_encoding_message_size : Option Nat
deriving DecidableEq

/-- Stub construction `GeyserClient::with_interceptor`. -/
def GeyserStub.with_interceptor (channel : Channel) (i : InterceptorXToken) :
    GeyserStub :=
  { channel := channel
    interceptor := i
    send_compressed := none
    accept_compressed := none
    max_decoding_message_size := none
    max_encoding_message_size := none }

/-- Stub option `GeyserClient::send_compressed`. -/
def GeyserStub.sendCompressed (g : GeyserStub) (e : CompressionEncoding) :
    GeyserStub :=
  { g with send_compressed := some e }

/-- Stub option `GeyserClient::accept_compressed`. -/
def GeyserStub.acceptCompressed (g : GeyserStub) (e : CompressionEncoding) :
    GeyserStub :=
  { g with accept_compressed := some e }

/-- Stub option `GeyserClient::max_decoding_message_size`. -/
def GeyserStub.maxDecodingMessageSize (g : GeyserStub) (limit : Nat) :
    GeyserStub :=
  { g with max_decoding_message_size := some limit }

/-- Stub option `GeyserClient::max_encoding_message_size`. -/
def GeyserStub.maxEncodingMessageSize (g : GeyserStub) (limit : Nat) :
    GeyserStub :=
  { g with max_encoding_message_size := some limit }

/-- The health stub `HealthClient<InterceptedService<Channel, F>>` as
assembled by `build`: transport handle plus interceptor. -/
structure HealthStub where
  channel : Channel
  interceptor : InterceptorXToken
deriving DecidableEq

/-- Stub construction `HealthClient::with_interceptor`. -/
def HealthStub.with_interceptor (channel : Channel) (i : InterceptorXToken) :
    HealthStub :=
  { channel := channel, interceptor := i }

/-- The client struct `GeyserGrpcClient`: a health stub and a geyser
stub. -/
structure GeyserGrpcClient where
  health : HealthStub
  geyser : GeyserStub
deriving DecidableEq

/-- The constructor `GeyserGrpcClient::new`. -/
def GeyserGrpcClient.new (health : HealthStub) (geyser : GeyserStub) :
    GeyserGrpcClient :=
  { health := health, geyser := geyser }

/-- The method `GeyserGrpcBuilder::build`: take the channel (error
`EmptyChannel` when absent), construct the interceptor from the token,
apply the stub options to the geyser stub, and pair both stubs. -/
def GeyserGrpcBuilder.build (b : GeyserGrpcBuilder) :
    Except GeyserGrpcBuilderError GeyserGrpcClient :=
  match b.channel with
  | none => Except.error GeyserGrpcBuilderError.EmptyChannel
  | some channel =>
      let interceptor : InterceptorXToken := InterceptorXToken.mk b.x_token
      let geyser := GeyserStub.with_interceptor channel interceptor
      let geyser := match b.send_compressed with
        | some encoding => geyser.sendCompressed encoding
        | none => geyser
      let geyser := match b.accept_compressed with
        | some encoding => geyser.acceptCompressed encoding
        | none => geyser
      let geyser := match b.max_decoding_message_size with
        | some limit => geyser.maxDecodingMessageSize limit
        | none => geyser
      let geyser := match b.max_encoding_message_size with
        | some limit => geyser.maxEncodingMessageSize limit
        | none => geyser
      Except.ok (GeyserGrpcClient.new
        (HealthStub.with_interceptor channel interceptor) geyser)

/-- The method `GeyserGrpcBuilder::x_token`: convert the supplied token to
an ASCII header value, reject empty values with `InvalidXTokenLength`; a
`none` argument clears the stored token. -/
def GeyserGrpcBuilder.xTokenSet (b : GeyserGrpcBuilder)
    (x_token : Option String) :
    Except GeyserGrpcBuilderError GeyserGrpcBuilder :=
  match x_token with
  | some s =>
      match AsciiMetadataValue.tryFrom s with
      | Except.error e =>
          Except.error (GeyserGrpcBuilderError.MetadataValueError e)
      | Except.ok v =>
          if v.isEmptyVal then
            Except.error (GeyserGrpcBuilderError.InvalidXTokenLength v.lenOf)
          else
            Except.ok { b with x_token := some v }
  | none => Except.ok { b with x_token := none }

/-- The method `GeyserGrpcBuilder::connect_lazy`: obtain a lazily-connected
transport handle from the endpoint. The handle construction itself is the
transport collaborator; we model it as a function of the endpoint. -/
def GeyserGrpcBuilder.connect_lazy (b : GeyserGrpcBuilder)
    (mkChannel : Endpoint → Channel) : GeyserGrpcBuilder :=
  { b with channel := some (mkChannel b.endpoint) }

/-- The configuration method `GeyserGrpcBuilder::connect_timeout`. -/
def GeyserGrpcBuilder.connectTimeout (b : GeyserGrpcBuilder)
    (dur : Duration) : GeyserGrpcBuilder :=
  { b with endpoint := b.endpoint.connect_timeout dur }

/-- The configuration method `GeyserGrpcBuilder::timeout`. -/
def GeyserGrpcBuilder.timeoutSet (b : GeyserGrpcBuilder) (dur : Duration) :
    GeyserGrpcBuilder :=
  { b with endpoint := b.endpoint.timeout dur }

/-- The configuration method `GeyserGrpcBuilder::tls_config`. -/
def GeyserGrpcBuilder.tlsConfig (b : GeyserGrpcBuilder)
    (tls_config : ClientTlsConfig) :
    Except GeyserGrpcBuilderError GeyserGrpcBuilder :=
  match b.endpoint.tls_config tls_config with
  | Except.ok endpoint => Except.ok { b with endpoint := endpoint }
  | Except.error e => Except.error e

/-- The configuration method `GeyserGrpcBuilder::buffer_size`. -/
def GeyserGrpcBuilder.bufferSize (b : GeyserGrpcBuilder) (sz : Option Nat) :
    GeyserGrpcBuilder :=
  { b with endpoint := b.endpoint.buffer_size sz }

/-- The configuration method `GeyserGrpcBuilder::http2_adaptive_window`. -/
def GeyserGrpcBuilder.http2AdaptiveWindow (b : GeyserGrpcBuilder)
    (enabled : Bool) : GeyserGrpcBuilder :=
  { b with endpoint := b.endpoint.http2_adaptive_window enabled }

/-- The configuration method
`GeyserGrpcBuilder::http2_keep_alive_interval`. -/
def GeyserGrpcBuilder.http2KeepAliveInterval (b : GeyserGrpcBuilder)
    (interval : Duration) : GeyserGrpcBuilder :=
  { b with endpoint := b.endpoint.http2_keep_alive_interval interval }

/-- The configuration method
`GeyserGrpcBuilder::initial_connection_window_size`. -/
def GeyserGrpcBuilder.initialConnectionWindowSize (b : GeyserGrpcBuilder)
    (sz : Option Nat) : GeyserGrpcBuilder :=
  { b with endpoint := b.endpoint.initial_connection_window_size sz }

/-- The configuration method
`GeyserGrpcBuilder::initial_stream_window_size`. -/
def GeyserGrpcBuilder.initialStreamWindowSize (b : GeyserGrpcBuilder)
    (sz : Option Nat) : GeyserGrpcBuilder :=
  { b with endpoint := b.endpoint.initial_stream_window_size sz }

/-- The configuration method `GeyserGrpcBuilder::keep_alive_timeout`. -/
def GeyserGrpcBuilder.keepAliveTimeout (b : GeyserGrpcBuilder)
    (duration : Duration) : GeyserGrpcBuilder :=
  { b with endpoint := b.endpoint.keep_alive_timeout duration }

/-- The configuration method `GeyserGrpcBuilder::keep_alive_while_idle`. -/
def GeyserGrpcBuilder.keepAliveWhileIdle (b : GeyserGrpcBuilder)
    (enabled : Bool) : GeyserGrpcBuilder :=
  { b with endpoint := b.endpoint.keep_alive_while_idle enabled }

/-- The configuration method `GeyserGrpcBuilder::tcp_keepalive`. -/
def GeyserGrpcBuilder.tcpKeepalive (b : GeyserGrpcBuilder)
    (tcp_keepalive : Option Duration) : GeyserGrpcBuilder :=
  { b with endpoint := b.endpoint.tcp_keepalive tcp_keepalive }

/-- The configuration method `GeyserGrpcBuilder::tcp_nodelay`. -/
def GeyserGrpcBuilder.tcpNodelay (b : GeyserGrpcBuilder) (enabled : Bool) :
    GeyserGrpcBuilder :=
  { b with endpoint := b.endpoint.tcp_nodelay enabled }

/-- The configuration method `GeyserGrpcBuilder::send_compressed`. -/
def GeyserGrpcBuilder.sendCompressed (b : GeyserGrpcBuilder)
    (encoding : CompressionEncoding) : GeyserGrpcBuilder :=
  { b with send_compressed := some encoding }

/-- The configuration method `GeyserGrpcBuilder::accept_compressed`. -/
def GeyserGrpcBuilder.acceptCompressed (b : GeyserGrpcBuilder)
    (encoding : CompressionEncoding) : GeyserGrpcBuilder :=
  { b with accept_compressed := some encoding }

/-- The configuration method
`GeyserGrpcBuilder::max_decoding_message_size`. -/
def GeyserGrpcBuilder.maxDecodingMessageSize (b : GeyserGrpcBuilder)
    (limit : Nat) : GeyserGrpcBuilder :=
  { b with max_decoding_message_size := some limit }

/-- The configuration method
`GeyserGrpcBuilder::max_encoding_message_size`. -/
def GeyserGrpcBuilder.maxEncodingMessageSize (b : GeyserGrpcBuilder)
    (limit : Nat) : GeyserGrpcBuilder :=
  { b with max_encoding_message_size := some limit }

/-- Modelled from the spec: a subscription filter request
(`SubscribeRequest` of the protobuf crate), opaque structured content. -/
structure SubscribeRequest where
  payload : Nat
deriving DecidableEq

/-- Modelled from the spec: one decoded update event (`SubscribeUpdate` of
the protobuf crate), opaque structured content. -/
structure SubscribeUpdate where
  payload : Nat
deriving DecidableEq

instance {ε α : Type} [DecidableEq ε] [DecidableEq α] :
    DecidableEq (Except ε α) := fun x y =>
  match x, y with
  | Except.ok a, Except.ok b =>
      if h : a = b then Decidable.isTrue (by rw [h])
      else Decidable.isFalse (fun he => h (by injection he))
  | Except.error a, Except.error b =>
      if h : a = b then Decidable.isTrue (by rw [h])
      else Decidable.isFalse (fun he => h (by injection he))
  | Except.ok _, Except.error _ =>
      Decidable.isFalse (fun he => Except.noConfusion he)
  | Except.error _, Except.ok _ =>
      Decidable.isFalse (fun he => Except.noConfusion he)

/-- Modelled from the spec: the inbound server-streaming half of an RPC
(`tonic::codec::Streaming`): a lazy sequence of typed items, each either a
value or a terminating status error; represented by the finite sequence of
items it will yield. -/
structure Streaming (α : Type) where
  items : List (Except Status α)
deriving DecidableEq

/-- Modelled from the spec: a successful RPC response envelope
(`tonic::Response`), unwrapped by `into_inner`. -/
structure RpcResponse (α : Type) where
  inner : α
deriving DecidableEq

/-- Unwrapping of the response envelope, mirroring `Response::into_inner`. -/
def RpcResponse.into_inner {α : Type} (r : RpcResponse α) : α :=
  r.inner

/-- Modelled from the spec: the state of one unbounded mpsc request queue
(`futures::channel::mpsc::unbounded`): the requests currently enqueued in
FIFO order, and whether the consumer half has been dropped. A producer
handle and the consumer handle share this state. -/
structure MpscChannel where
  queue : List SubscribeRequest
  receiverDropped : Bool
deriving DecidableEq

/-- Modelled from the spec: the freshly created channel returned by
`mpsc::unbounded()` — empty queue, consumer half alive. -/
def mpscUnbounded : MpscChannel :=
  { queue := [], receiverDropped := false }

/-- Modelled from the spec: sending on the producer half of an unbounded
queue (`subscribe_tx.send(...)`); it fails (with a disconnection error) only
when the consumer half has been dropped, and otherwise appends the request
in FIFO order. -/
def MpscChannel.send (ch : MpscChannel) (r : SubscribeRequest) :
    Except SendError MpscChannel :=
  if ch.receiverDropped then Except.error SendError.disconnected
  else Except.ok { ch with queue := ch.queue ++ [r] }

/-- The outcome of opening the bidirectional RPC
(`self.geyser.subscribe(subscribe_rx)`): a function of the request sequence
the server will observe on the outbound stream, returning either a status
error or the response carrying the inbound update stream. This is the
data-feed stub collaborator at its interface boundary. -/
def SubscribeRpc : Type :=
  List SubscribeRequest → Except Status (RpcResponse (Streaming SubscribeUpdate))

/-- The body of `GeyserGrpcClient::subscribe_with_request` after the
`mpsc::unbounded()` call, parameterized by the channel state it operates
on: optionally enqueue the initial request (mapping a send failure to
`SubscribeSendError`), then open the RPC handing over the consumer half,
and return the producer half with the inbound stream. -/
def subscribeBody (rpc : SubscribeRpc) (ch : MpscChannel)
    (request : Option SubscribeRequest) :
    Except GeyserGrpcClientError (MpscChannel × Streaming SubscribeUpdate) :=
  match request with
  | some r =>
      match ch.send r with
      | Except.error e =>
          Except.error (GeyserGrpcClientError.SubscribeSendError e)
      | Except.ok ch2 =>
          match rpc ch2.queue with
          | Except.error s => Except.error (GeyserGrpcClientError.TonicStatus s)
          | Except.ok response => Except.ok (ch2, response.into_inner)
  | none =>
      match rpc ch.queue with
      | Except.error s => Except.error (GeyserGrpcClientError.TonicStatus s)
      | Except.ok response => Except.ok (ch, response.into_inner)

/-- The method `GeyserGrpcClient::subscribe_with_request`: create a fresh
unbounded queue, then run the protocol body on it. -/
def subscribe_with_request (rpc : SubscribeRpc)
    (request : Option SubscribeRequest) :
    Except GeyserGrpcClientError (MpscChannel × Streaming SubscribeUpdate) :=
  subscribeBody rpc mpscUnbounded request

/-- The method `GeyserGrpcClient::subscribe`: delegate with no initial
request. -/
def subscribe (rpc : SubscribeRpc) :
    Except GeyserGrpcClientError (MpscChannel × Streaming SubscribeUpdate) :=
  subscribe_with_request rpc none

/-- The method `GeyserGrpcClient::subscribe_once`: delegate with the given
initial request and discard the producer half. -/
def subscribe_once (rpc : SubscribeRpc) (request : SubscribeRequest) :
    Except GeyserGrpcClientError (Streaming SubscribeUpdate) :=
  Except.map (fun p => p.2) (subscribe_with_request rpc (some request))

/-- Modelled from the spec: the commitment-level enumeration of the
protobuf crate (`CommitmentLevel`), an enumerated consistency tier with an
underlying integer representation. -/
inductive CommitmentLevel where
  | processed
  | confirmed
  | finalized
deriving DecidableEq

/-- Modelled from the spec: the underlying integer of a commitment level
(the `value as i32` cast of the source). -/
def CommitmentLevel.asI32 : CommitmentLevel → Int
  | CommitmentLevel.processed => 0
  | CommitmentLevel.confirmed => 1
  | CommitmentLevel.finalized => 2

/-- Modelled from the spec: the `PingRequest` message. -/
structure PingRequest where
  count : Int
deriving DecidableEq

/-- Modelled from the spec: the `PongResponse` message, opaque content. -/
structure PongResponse where
  count : Int
deriving DecidableEq

/-- Modelled from the spec: the `GetLatestBlockhashRequest` message. -/
structure GetLatestBlockhashRequest where
  commitment : Option Int
deriving DecidableEq

/-- Modelled from the spec: the `GetLatestBlockhashResponse` message,
opaque content. -/
structure GetLatestBlockhashResponse where
  payload : Nat
deriving DecidableEq

/-- Modelled from the spec: the `GetBlockHeightRequest` message. -/
structure GetBlockHeightRequest where
  commitment : Option Int
deriving DecidableEq

/-- Modelled from the spec: the `GetBlockHeightResponse` message, opaque
content. -/
structure GetBlockHeightResponse where
  payload : Nat
deriving DecidableEq

/-- Modelled from the spec: the `GetSlotRequest` message. -/
structure GetSlotRequest where
  commitment : Option Int
deriving DecidableEq

/-- Modelled from the spec: the `GetSlotResponse` message, opaque
content. -/
structure GetSlotResponse where
  payload : Nat
deriving DecidableEq

/-- Modelled from the spec: the `IsBlockhashValidRequest` message. -/
structure IsBlockhashValidRequest where
  blockhash : String
  commitment : Option Int
deriving DecidableEq

/-- Modelled from the spec: the `IsBlockhashValidResponse` message, opaque
content. -/
structure IsBlockhashValidResponse where
  payload : Nat
deriving DecidableEq

/-- Modelled from the spec: the `GetVersionRequest` message (empty). -/
structure GetVersionRequest where
deriving DecidableEq

/-- Modelled from the spec: the `GetVersionResponse` message, opaque
content. -/
structure GetVersionResponse where
  payload : Nat
deriving DecidableEq

/-- Modelled from the spec: the `HealthCheckRequest` message of the health
collaborator. -/
structure HealthCheckRequest where
  service : String
deriving DecidableEq

/-- Modelled from the spec: the `HealthCheckResponse` message, opaque
content. -/
structure HealthCheckResponse where
  payload : Nat
deriving DecidableEq

/-- The shape of a unary stub call at its interface boundary: a function
from the typed request to either a status error or the typed response
envelope. -/
def UnaryStub (ρ σ : Type) : Type :=
  ρ → Except Status (RpcResponse σ)

/-- The generic tail shared by every unary wrapper of the source: issue the
request over the stub, propagate a status failure into `TonicStatus`
unmodified, and unwrap the response on success. -/
def issueUnary {ρ σ : Type} (stub : UnaryStub ρ σ) (request : ρ) :
    Except GeyserGrpcClientError σ :=
  match stub request with
  | Except.error s => Except.error (GeyserGrpcClientError.TonicStatus s)
  | Except.ok response => Except.ok response.into_inner

/-- The method `GeyserGrpcClient::ping`. -/
def ping (stub : UnaryStub PingRequest PongResponse) (count : Int) :
    Except GeyserGrpcClientError PongResponse :=
  issueUnary stub { count := count }

/-- The method `GeyserGrpcClient::get_latest_blockhash`. -/
def get_latest_blockhash
    (stub : UnaryStub GetLatestBlockhashRequest GetLatestBlockhashResponse)
    (commitment : Option CommitmentLevel) :
    Except GeyserGrpcClientError GetLatestBlockhashResponse :=
  issueUnary stub { commitment := commitment.map (fun v => v.asI32) }

/-- The method `GeyserGrpcClient::get_block_height`. -/
def get_block_height
    (stub : UnaryStub GetBlockHeightRequest GetBlockHeightResponse)
    (commitment : Option CommitmentLevel) :
    Except GeyserGrpcClientError GetBlockHeightResponse :=
  issueUnary stub { commitment := commitment.map (fun v => v.asI32) }

/-- The method `GeyserGrpcClient::get_slot`. -/
def get_slot (stub : UnaryStub GetSlotRequest GetSlotResponse)
    (commitment : Option CommitmentLevel) :
    Except GeyserGrpcClientError GetSlotResponse :=
  issueUnary stub { commitment := commitment.map (fun v => v.asI32) }

/-- The method `GeyserGrpcClient::is_blockhash_valid`. -/
def is_blockhash_valid
    (stub : UnaryStub IsBlockhashValidRequest IsBlockhashValidResponse)
    (blockhash : String) (commitment : Option CommitmentLevel) :
    Except GeyserGrpcClientError IsBlockhashValidResponse :=
  issueUnary stub
    { blockhash := blockhash
      commitment := commitment.map (fun v => v.asI32) }

/-- The method `GeyserGrpcClient::get_version`. -/
def get_version (stub : UnaryStub GetVersionRequest GetVersionResponse) :
    Except GeyserGrpcClientError GetVersionResponse :=
  issueUnary stub {}

/-- The method `GeyserGrpcClient::health_check`: request the service name
"geyser.Geyser" over the health stub. -/
def health_check
    (stub : UnaryStub HealthCheckRequest HealthCheckResponse) :
    Except GeyserGrpcClientError HealthCheckResponse :=
  issueUnary stub { service := "geyser.Geyser" }

/-- The method `GeyserGrpcClient::health_watch`: request the service name
"geyser.Geyser" over the health stub's server-streaming watch call. -/
def health_watch
    (stub : UnaryStub HealthCheckRequest (Streaming HealthCheckResponse)) :
    Except GeyserGrpcClientError (Streaming HealthCheckResponse) :=
  issueUnary stub { service := "geyser.Geyser" }

/-- Discriminator for the `SubscribeSendError` outcome of the subscription
protocol. -/
def isSubscribeSendErrorResult
    (r : Except GeyserGrpcClientError (MpscChannel × Streaming SubscribeUpdate)) :
    Bool :=
  match r with
  | Except.error (GeyserGrpcClientError.SubscribeSendError _) => true
  | _ => false

theorem issueUnary_ok {ρ σ : Type} (stub : UnaryStub ρ σ) (request : ρ)
    (resp : RpcResponse σ) (h : stub request = Except.ok resp) :
    issueUnary stub request = Except.ok resp.into_inner := by
  unfold issueUnary
  rw [h]

theorem issueUnary_error {ρ σ : Type} (stub : UnaryStub ρ σ) (request : ρ)
    (s : Status) (h : stub request = Except.error s) :
    issueUnary stub request =
      Except.error (GeyserGrpcClientError.TonicStatus s) := by
  unfold issueUnary
  rw [h]

theorem metadata_get_insert (m : Metadata) (k : String)
    (v : AsciiMetadataValue) : (m.insert k v).get k = some v := by
  unfold Metadata.insert Metadata.get
  simp [List.lookup]

theorem xTokenSet_some_eq (b : GeyserGrpcBuilder) (s : String) :
    b.xTokenSet (some s) =
      (match AsciiMetadataValue.tryFrom s with
      | Except.error e =>
          Except.error (GeyserGrpcBuilderError.MetadataValueError e)
      | Except.ok v =>
          if v.isEmptyVal then
            Except.error (GeyserGrpcBuilderError.InvalidXTokenLength v.lenOf)
          else Except.ok { b with x_token := some v }) := rfl

theorem tryFrom_ascii_ok (s : String) (hc : ∀ c ∈ s.toList, c.toNat < 128) :
    AsciiMetadataValue.tryFrom s = Except.ok (AsciiMetadataValue.mk s) := by
  have hcond : s.toList.all (fun c => decide (c.toNat < 128)) = true :=
    List.all_eq_true.mpr (fun c mem => decide_eq_true (hc c mem))
  unfold AsciiMetadataValue.tryFrom
  rw [if_pos hcond]

theorem subscribeBody_some_eq (rpc : SubscribeRpc) (ch : MpscChannel)
    (r : SubscribeRequest) :
    subscribeBody rpc ch (some r) =
      (match ch.send r with
      | Except.error e =>
          Except.error (GeyserGrpcClientError.SubscribeSendError e)
      | Except.ok ch2 =>
          match rpc ch2.queue with
          | Except.error s =>
              Except.error (GeyserGrpcClientError.TonicStatus s)
          | Except.ok response => Except.ok (ch2, response.into_inner)) := rfl

theorem subscribe_with_request_some_eq (rpc : SubscribeRpc)
    (r : SubscribeRequest) :
    subscribe_with_request rpc (some r) =
      (match rpc [r] with
      | Except.error s => Except.error (GeyserGrpcClientError.TonicStatus s)
      | Except.ok response =>
          Except.ok (MpscChannel.mk [r] false, response.into_inner)) := rfl

theorem subscribe_with_request_none_eq (rpc : SubscribeRpc) :
    subscribe_with_request rpc none =
      (match rpc [] with
      | Except.error s => Except.error (GeyserGrpcClientError.TonicStatus s)
      | Except.ok response =>
          Except.ok (MpscChannel.mk [] false, response.into_inner)) := rfl

/-- Claim C5: the auth interceptor never fails; with a configured token it
returns the request with the token inserted under the metadata key
"x-token", with no token it returns the request unchanged, and in both
cases it leaves the request's message and extensions untouched. -/
theorem interceptor_call_spec (i : InterceptorXToken) (request : Request) :
    ∃ request2, i.call request = Except.ok request2 ∧
      request2.message = request.message ∧
      request2.extensions = request.extensions ∧
      request2.metadata = (match i.x_token with
        | some t => request.metadata.insert "x-token" t
        | none => request.metadata) := by
  cases h : i.x_token with
  | some t =>
      refine ⟨{ request with
        metadata := request.metadata.insert "x-token" t }, ?_, rfl, rfl, rfl⟩
      unfold InterceptorXToken.call
      rw [h]
  | none =>
      refine ⟨request, ?_, rfl, rfl, rfl⟩
      unfold InterceptorXToken.call
      rw [h]

/-- Claim C2: calling build on a builder whose channel field is absent
fails with the distinct `EmptyChannel` error; build never implicitly
connects (it is a pure function of the configuration and constructs no
transport handle). -/
theorem build_without_channel_fails (b : GeyserGrpcBuilder)
    (h : b.channel = none) :
    b.build = Except.error GeyserGrpcBuilderError.EmptyChannel := by
  unfold GeyserGrpcBuilder.build
  rw [h]

theorem build_without_channel_fails_witness :
    (GeyserGrpcBuilder.from_static "http://127.0.0.1:10000").channel = none ∧
    (GeyserGrpcBuilder.from_static "http://127.0.0.1:10000").build =
      Except.error GeyserGrpcBuilderError.EmptyChannel :=
  ⟨rfl, build_without_channel_fails _ rfl⟩

/-- Claim C4: on a builder whose channel field is present, build succeeds
and returns a client whose health stub and geyser stub are bound to the
same transport handle and to equal interceptor values carrying exactly the
builder's configured token, with the stub options carried over to the
geyser stub. -/
theorem build_binds_stubs_uniformly (b : GeyserGrpcBuilder) (ch : Channel)
    (h : b.channel = some ch) :
    ∃ c, b.build = Except.ok c ∧
      c.health.channel = ch ∧
      c.geyser.channel = ch ∧
      c.health.interceptor = c.geyser.interceptor ∧
      c.health.interceptor = InterceptorXToken.mk b.x_token ∧
      c.geyser.send_compressed = b.send_compressed ∧
      c.geyser.accept_compressed = b.accept_compressed ∧
      c.geyser.max_decoding_message_size = b.max_decoding_message_size ∧
      c.geyser.max_encoding_message_size = b.max_encoding_message_size := by
  unfold GeyserGrpcBuilder.build
  rw [h]
  cases b.send_compressed <;> cases b.accept_compressed <;>
    cases b.max_decoding_message_size <;>
    cases b.max_encoding_message_size <;>
    exact ⟨_, rfl, rfl, rfl, rfl, rfl, rfl, rfl, rfl, rfl⟩

theorem build_binds_stubs_uniformly_witness :
    ({ GeyserGrpcBuilder.from_static "http://127.0.0.1:10000" with
       channel := some (Channel.mk 0) } : GeyserGrpcBuilder).channel =
      some (Channel.mk 0) ∧
    ∃ c, ({ GeyserGrpcBuilder.from_static "http://127.0.0.1:10000" with
            channel := some (Channel.mk 0) } : GeyserGrpcBuilder).build =
        Except.ok c ∧
      c.health.channel = Channel.mk 0 ∧
      c.geyser.channel = Channel.mk 0 ∧
      c.health.interceptor = c.geyser.interceptor ∧
      c.health.interceptor = InterceptorXToken.mk
        ({ GeyserGrpcBuilder.from_static "http://127.0.0.1:10000" with
           channel := some (Channel.mk 0) } : GeyserGrpcBuilder).x_token ∧
      c.geyser.send_compressed =
        ({ GeyserGrpcBuilder.from_static "http://127.0.0.1:10000" with
           channel := some (Channel.mk 0) } : GeyserGrpcBuilder).send_compressed ∧
      c.geyser.accept_compressed =
        ({ GeyserGrpcBuilder.from_static "http://127.0.0.1:10000" with
           channel := some (Channel.mk 0) } : GeyserGrpcBuilder).accept_compressed ∧
      c.geyser.max_decoding_message_size =
        ({ GeyserGrpcBuilder.from_static "http://127.0.0.1:10000" with
           channel := some (Channel.mk 0) } : GeyserGrpcBuilder).max_decoding_message_size ∧
      c.geyser.max_encoding_message_size =
        ({ GeyserGrpcBuilder.from_static "http://127.0.0.1:10000" with
           channel := some (Channel.mk 0) } : GeyserGrpcBuilder).max_encoding_message_size :=
  ⟨rfl, build_binds_stubs_uniformly _ (Channel.mk 0) rfl⟩

/-- Claim C3: setting a token of length 0 fails with the length-validation
error naming the offending length; an input whose conversion to an ASCII
header value fails yields the distinct `MetadataValueError`; a non-empty
all-ASCII token is accepted, stored unchanged, and round-trips unchanged
into the interceptor's x-token header. All paths are pure (no network
activity). -/
theorem x_token_validation_spec (b : GeyserGrpcBuilder) (s : String) :
    (s.length = 0 →
      b.xTokenSet (some s) =
        Except.error (GeyserGrpcBuilderError.InvalidXTokenLength s.length)) ∧
    (∀ e, AsciiMetadataValue.tryFrom s = Except.error e →
      b.xTokenSet (some s) =
        Except.error (GeyserGrpcBuilderError.MetadataValueError e)) ∧
    (s.length ≠ 0 → (∀ c ∈ s.toList, c.toNat < 128) →
      ∃ b2, b.xTokenSet (some s) = Except.ok b2 ∧
        b2.x_token = some (AsciiMetadataValue.mk s) ∧
        ∀ request, ∃ request2,
          (InterceptorXToken.mk b2.x_token).call request = Except.ok request2 ∧
          request2.metadata.get "x-token" =
            some (AsciiMetadataValue.mk s)) := by
  refine ⟨?_, ?_, ?_⟩
  · intro h0
    have hd : s.toList = [] := by
      have h1 : s.toList.length = 0 := h0
      exact List.length_eq_zero.mp h1
    have hok : AsciiMetadataValue.tryFrom s =
        Except.ok (AsciiMetadataValue.mk s) := by
      apply tryFrom_ascii_ok
      intro c hc
      rw [hd] at hc
      exact absurd hc (List.not_mem_nil c)
    have hemp : (AsciiMetadataValue.mk s).isEmptyVal = true := by
      unfold AsciiMetadataValue.isEmptyVal
      exact beq_iff_eq.mpr h0
    simp only [xTokenSet_some_eq, hok, hemp, if_true]
    rfl
  · intro e he
    simp only [xTokenSet_some_eq, he]
  · intro h0 hc
    have hok : AsciiMetadataValue.tryFrom s =
        Except.ok (AsciiMetadataValue.mk s) := tryFrom_ascii_ok s hc
    have hne : (AsciiMetadataValue.mk s).isEmptyVal = false := by
      unfold AsciiMetadataValue.isEmptyVal
      exact beq_eq_false_iff_ne.mpr h0
    refine ⟨{ b with x_token := some (AsciiMetadataValue.mk s) }, ?_, rfl, ?_⟩
    · simp only [xTokenSet_some_eq, hok, hne]
      rfl
    · intro request
      refine ⟨_, rfl, ?_⟩
      exact metadata_get_insert request.metadata "x-token"
        (AsciiMetadataValue.mk s)

theorem x_token_validation_spec_witness :
    ((GeyserGrpcBuilder.from_static "http://e").xTokenSet (some "") =
      Except.error
        (GeyserGrpcBuilderError.InvalidXTokenLength (String.length ""))) ∧
    ((GeyserGrpcBuilder.from_static "http://e").xTokenSet (some "é") =
      Except.error
        (GeyserGrpcBuilderError.MetadataValueError InvalidMetadataValue.mk)) ∧
    (∃ b2, (GeyserGrpcBuilder.from_static "http://e").xTokenSet
          (some "1234567891012141618202224268") = Except.ok b2 ∧
      b2.x_token = some (AsciiMetadataValue.mk "1234567891012141618202224268") ∧
      ∀ request, ∃ request2,
        (InterceptorXToken.mk b2.x_token).call request = Except.ok request2 ∧
        request2.metadata.get "x-token" =
          some (AsciiMetadataValue.mk "1234567891012141618202224268")) :=
  ⟨(x_token_validation_spec _ "").1 (by decide),
   (x_token_validation_spec _ "é").2.1 InvalidMetadataValue.mk (by decide),
   (x_token_validation_spec _ "1234567891012141618202224268").2.2
     (by decide) (by decide)⟩

/-- Claim C10: clearing the token with a `none` argument always succeeds,
leaves the builder with no configured token whatever was configured before,
and changes nothing else. -/
theorem x_token_none_clears (b : GeyserGrpcBuilder) :
    ∃ b2, b.xTokenSet none = Except.ok b2 ∧ b2.x_token = none ∧
      b2.endpoint = b.endpoint ∧ b2.channel = b.channel ∧
      b2.send_compressed = b.send_compressed ∧
      b2.accept_compressed = b.accept_compressed ∧
      b2.max_decoding_message_size = b.max_decoding_message_size ∧
      b2.max_encoding_message_size = b.max_encoding_message_size :=
  ⟨{ b with x_token := none }, rfl, rfl, rfl, rfl, rfl, rfl, rfl, rfl⟩

/-- Claim C7: every configuration-only builder operation is total in both
builder states, preserves the channel field and every field it does not
target, changes exactly the targeted field, and returns the updated
configuration value. -/
theorem config_ops_frame :
    (∀ b dur, GeyserGrpcBuilder.connectTimeout b dur =
      { b with endpoint :=
        { b.endpoint with connectTimeoutField := some dur } }) ∧
    (∀ b dur, GeyserGrpcBuilder.timeoutSet b dur =
      { b with endpoint := { b.endpoint with timeoutField := some dur } }) ∧
    (∀ b cfg, GeyserGrpcBuilder.tlsConfig b cfg =
      Except.ok { b with endpoint :=
        { b.endpoint with tlsField := some cfg } }) ∧
    (∀ b sz, GeyserGrpcBuilder.bufferSize b sz =
      { b with endpoint := { b.endpoint with bufferSizeField := sz } }) ∧
    (∀ b en, GeyserGrpcBuilder.http2AdaptiveWindow b en =
      { b with endpoint :=
        { b.endpoint with http2AdaptiveWindowField := some en } }) ∧
    (∀ b iv, GeyserGrpcBuilder.http2KeepAliveInterval b iv =
      { b with endpoint :=
        { b.endpoint with http2KeepAliveIntervalField := some iv } }) ∧
    (∀ b sz, GeyserGrpcBuilder.initialConnectionWindowSize b sz =
      { b with endpoint :=
        { b.endpoint with initialConnectionWindowSizeField := sz } }) ∧
    (∀ b sz, GeyserGrpcBuilder.initialStreamWindowSize b sz =
      { b with endpoint :=
        { b.endpoint with initialStreamWindowSizeField := sz } }) ∧
    (∀ b dur, GeyserGrpcBuilder.keepAliveTimeout b dur =
      { b with endpoint :=
        { b.endpoint with keepAliveTimeoutField := some dur } }) ∧
    (∀ b en, GeyserGrpcBuilder.keepAliveWhileIdle b en =
      { b with endpoint :=
        { b.endpoint with keepAliveWhileIdleField := some en } }) ∧
    (∀ b ka, GeyserGrpcBuilder.tcpKeepalive b ka =
      { b with endpoint := { b.endpoint with tcpKeepaliveField := ka } }) ∧
    (∀ b en, GeyserGrpcBuilder.tcpNodelay b en =
      { b with endpoint :=
        { b.endpoint with tcpNodelayField := some en } }) ∧
    (∀ b en, GeyserGrpcBuilder.sendCompressed b en =
      { b with send_compressed := some en }) ∧
    (∀ b en, GeyserGrpcBuilder.acceptCompressed b en =
      { b with accept_compressed := some en }) ∧
    (∀ b lim, GeyserGrpcBuilder.maxDecodingMessageSize b lim =
      { b with max_decoding_message_size := some lim }) ∧
    (∀ b lim, GeyserGrpcBuilder.maxEncodingMessageSize b lim =
      { b with max_encoding_message_size := some lim }) ∧
    (∀ b, GeyserGrpcBuilder.xTokenSet b none =
      Except.ok { b with x_token := none }) ∧
    (∀ b s, match GeyserGrpcBuilder.xTokenSet b (some s) with
      | Except.ok b2 =>
          b2.endpoint = b.endpoint ∧ b2.channel = b.channel ∧
          b2.send_compressed = b.send_compressed ∧
          b2.accept_compressed = b.accept_compressed ∧
          b2.max_decoding_message_size = b.max_decoding_message_size ∧
          b2.max_encoding_message_size = b.max_encoding_message_size
      | Except.error _ => True) := by
  refine ⟨fun _ _ => rfl, fun _ _ => rfl, fun _ _ => rfl, fun _ _ => rfl,
    fun _ _ => rfl, fun _ _ => rfl, fun _ _ => rfl, fun _ _ => rfl,
    fun _ _ => rfl, fun _ _ => rfl, fun _ _ => rfl, fun _ _ => rfl,
    fun _ _ => rfl, fun _ _ => rfl, fun _ _ => rfl, fun _ _ => rfl,
    fun _ => rfl, ?_⟩
  intro b s
  rw [xTokenSet_some_eq]
  cases AsciiMetadataValue.tryFrom s with
  | error e => exact trivial
  | ok v =>
      cases hv : v.isEmptyVal with
      | true => simp [hv]
      | false => simp [hv]

/-- Claim C9: the send-error branch of subscribe_with_request is
unreachable: the queue is created in the same call with its consumer half
alive, so enqueuing the initial request always succeeds and the result is
never a `SubscribeSendError`. -/
theorem subscribe_send_error_unreachable (rpc : SubscribeRpc)
    (request : Option SubscribeRequest) :
    isSubscribeSendErrorResult (subscribe_with_request rpc request) =
      false := by
  cases request with
  | none =>
      rw [subscribe_with_request_none_eq]
      cases rpc [] with
      | ok response => rfl
      | error s => rfl
  | some r =>
      rw [subscribe_with_request_some_eq]
      cases rpc [r] with
      | ok response => rfl
      | error s => rfl

/-- Claim C1: subscribe_with_request with an initial request enqueues it on
the freshly created unbounded queue before the RPC is opened (the RPC
observes the request already queued); on success it returns the producer
half holding that request together with the inbound update stream; and a
failed enqueue is surfaced as the distinct `SubscribeSendError` with no
dependence on the RPC collaborator (no network call attempted). -/
theorem subscribe_with_request_primes_queue :
    (∀ rpc r resp, rpc [r] = Except.ok resp →
      subscribe_with_request rpc (some r) =
        Except.ok (MpscChannel.mk [r] false, resp.into_inner)) ∧
    (∀ rpc r s, rpc [r] = Except.error s →
      subscribe_with_request rpc (some r) =
        Except.error (GeyserGrpcClientError.TonicStatus s)) ∧
    (∀ ch r e, MpscChannel.send ch r = Except.error e →
      ∀ rpc rpc2 : SubscribeRpc,
        subscribeBody rpc ch (some r) =
          Except.error (GeyserGrpcClientError.SubscribeSendError e) ∧
        subscribeBody rpc ch (some r) = subscribeBody rpc2 ch (some r)) := by
  refine ⟨?_, ?_, ?_⟩
  · intro rpc r resp h
    rw [subscribe_with_request_some_eq, h]
  · intro rpc r s h
    rw [subscribe_with_request_some_eq, h]
  · intro ch r e h rpc rpc2
    constructor
    · rw [subscribeBody_some_eq, h]
    · rw [subscribeBody_some_eq, h, subscribeBody_some_eq, h]

theorem subscribe_with_request_primes_queue_witness :
    (subscribe_with_request
        (fun _ => Except.ok (RpcResponse.mk (Streaming.mk [])))
        (some (SubscribeRequest.mk 1)) =
      Except.ok (MpscChannel.mk [SubscribeRequest.mk 1] false,
        Streaming.mk [])) ∧
    (subscribe_with_request (fun _ => Except.error (Status.mk 14 "down"))
        (some (SubscribeRequest.mk 1)) =
      Except.error (GeyserGrpcClientError.TonicStatus (Status.mk 14 "down"))) ∧
    (subscribeBody (fun _ => Except.ok (RpcResponse.mk (Streaming.mk [])))
        (MpscChannel.mk [] true) (some (SubscribeRequest.mk 1)) =
      Except.error
        (GeyserGrpcClientError.SubscribeSendError SendError.disconnected)) :=
  ⟨subscribe_with_request_primes_queue.1 _ _ _ rfl,
   subscribe_with_request_primes_queue.2.1 _ _ _ rfl,
   (subscribe_with_request_primes_queue.2.2 (MpscChannel.mk [] true)
     (SubscribeRequest.mk 1) SendError.disconnected rfl _
     (fun _ => Except.error (Status.mk 0 ""))).1⟩

/-- Claim C6: subscribe_once performs exactly the protocol of
subscribe_with_request with the given initial request and returns its
inbound stream with the producer half discarded, and subscribe is
equivalent to subscribe_with_request with no initial request. -/
theorem subscribe_variants_delegate :
    (∀ rpc r, subscribe_once rpc r =
      Except.map Prod.snd (subscribe_with_request rpc (some r))) ∧
    (∀ rpc r ch stream,
      subscribe_with_request rpc (some r) = Except.ok (ch, stream) →
      subscribe_once rpc r = Except.ok stream) ∧
    (∀ rpc r e, subscribe_with_request rpc (some r) = Except.error e →
      subscribe_once rpc r = Except.error e) ∧
    (∀ rpc, subscribe rpc = subscribe_with_request rpc none) := by
  refine ⟨fun _ _ => rfl, ?_, ?_, fun _ => rfl⟩
  · intro rpc r ch stream h
    unfold subscribe_once
    rw [h]
    rfl
  · intro rpc r e h
    unfold subscribe_once
    rw [h]
    rfl

theorem subscribe_variants_delegate_witness :
    subscribe_once (fun _ => Except.ok (RpcResponse.mk (Streaming.mk [])))
        (SubscribeRequest.mk 2) =
      Except.ok (Streaming.mk []) ∧
    subscribe_once (fun _ => Except.error (Status.mk 14 "down"))
        (SubscribeRequest.mk 2) =
      Except.error (GeyserGrpcClientError.TonicStatus (Status.mk 14 "down")) :=
  ⟨subscribe_variants_delegate.2.1 _ _ (MpscChannel.mk [SubscribeRequest.mk 2]
      false) (Streaming.mk []) (by decide),
   subscribe_variants_delegate.2.2.1 _ _
     (GeyserGrpcClientError.TonicStatus (Status.mk 14 "down")) (by decide)⟩

/-- Claim C8: every unary operation builds its typed request record (with
the commitment field the integer encoding of the supplied level, or none),
issues it over its stub, returns the unwrapped response on success, and
surfaces any RPC-layer failure unmodified as a single `TonicStatus` error
with no local retry. -/
theorem unary_ops_contract :
    (∀ stub count resp, stub (PingRequest.mk count) = Except.ok resp →
      ping stub count = Except.ok resp.into_inner) ∧
    (∀ stub count s, stub (PingRequest.mk count) = Except.error s →
      ping stub count =
        Except.error (GeyserGrpcClientError.TonicStatus s)) ∧
    (∀ stub c resp,
      stub (GetLatestBlockhashRequest.mk
          (Option.map CommitmentLevel.asI32 c)) = Except.ok resp →
      get_latest_blockhash stub c = Except.ok resp.into_inner) ∧
    (∀ stub c s,
      stub (GetLatestBlockhashRequest.mk
          (Option.map CommitmentLevel.asI32 c)) = Except.error s →
      get_latest_blockhash stub c =
        Except.error (GeyserGrpcClientError.TonicStatus s)) ∧
    (∀ stub c resp,
      stub (GetBlockHeightRequest.mk
          (Option.map CommitmentLevel.asI32 c)) = Except.ok resp →
      get_block_height stub c = Except.ok resp.into_inner) ∧
    (∀ stub c s,
      stub (GetBlockHeightRequest.mk
          (Option.map CommitmentLevel.asI32 c)) = Except.error s →
      get_block_height stub c =
        Except.error (GeyserGrpcClientError.TonicStatus s)) ∧
    (∀ stub c resp,
      stub (GetSlotRequest.mk (Option.map CommitmentLevel.asI32 c)) =
        Except.ok resp →
      get_slot stub c = Except.ok resp.into_inner) ∧
    (∀ stub c s,
      stub (GetSlotRequest.mk (Option.map CommitmentLevel.asI32 c)) =
        Except.error s →
      get_slot stub c =
        Except.error (GeyserGrpcClientError.TonicStatus s)) ∧
    (∀ stub bh c resp,
      stub (IsBlockhashValidRequest.mk bh
          (Option.map CommitmentLevel.asI32 c)) = Except.ok resp →
      is_blockhash_valid stub bh c = Except.ok resp.into_inner) ∧
    (∀ stub bh c s,
      stub (IsBlockhashValidRequest.mk bh
          (Option.map CommitmentLevel.asI32 c)) = Except.error s →
      is_blockhash_valid stub bh c =
        Except.error (GeyserGrpcClientError.TonicStatus s)) ∧
    (∀ stub resp, stub GetVersionRequest.mk = Except.ok resp →
      get_version stub = Except.ok resp.into_inner) ∧
    (∀ stub s, stub GetVersionRequest.mk = Except.error s →
      get_version stub =
        Except.error (GeyserGrpcClientError.TonicStatus s)) ∧
    (∀ stub resp, stub (HealthCheckRequest.mk "geyser.Geyser") =
        Except.ok resp →
      health_check stub = Except.ok resp.into_inner) ∧
    (∀ stub s, stub (HealthCheckRequest.mk "geyser.Geyser") =
        Except.error s →
      health_check stub =
        Except.error (GeyserGrpcClientError.TonicStatus s)) ∧
    (∀ stub resp, stub (HealthCheckRequest.mk "geyser.Geyser") =
        Except.ok resp →
      health_watch stub = Except.ok resp.into_inner) ∧
    (∀ stub s, stub (HealthCheckRequest.mk "geyser.Geyser") =
        Except.error s →
      health_watch stub =
        Except.error (GeyserGrpcClientError.TonicStatus s)) :=
  ⟨fun stub _ resp h => issueUnary_ok stub _ resp h,
   fun stub _ s h => issueUnary_error stub _ s h,
   fun stub _ resp h => issueUnary_ok stub _ resp h,
   fun stub _ s h => issueUnary_error stub _ s h,
   fun stub _ resp h => issueUnary_ok stub _ resp h,
   fun stub _ s h => issueUnary_error stub _ s h,
   fun stub _ resp h => issueUnary_ok stub _ resp h,
   fun stub _ s h => issueUnary_error stub _ s h,
   fun stub _ _ resp h => issueUnary_ok stub _ resp h,
   fun stub _ _ s h => issueUnary_error stub _ s h,
   fun stub resp h => issueUnary_ok stub _ resp h,
   fun stub s h => issueUnary_error stub _ s h,
   fun stub resp h => issueUnary_ok stub _ resp h,
   fun stub s h => issueUnary_error stub _ s h,
   fun stub resp h => issueUnary_ok stub _ resp h,
   fun stub s h => issueUnary_error stub _ s h⟩

theorem unary_ops_contract_witness :
    ping (fun r => Except.ok (RpcResponse.mk (PongResponse.mk r.count))) 7 =
      Except.ok (PongResponse.mk 7) ∧
    ping (fun _ => Except.error (Status.mk 14 "down")) 7 =
      Except.error (GeyserGrpcClientError.TonicStatus (Status.mk 14 "down")) ∧
    get_slot (fun _ => Except.ok (RpcResponse.mk (GetSlotResponse.mk 9)))
        (some CommitmentLevel.confirmed) =
      Except.ok (GetSlotResponse.mk 9) ∧
    get_slot (fun _ => Except.error (Status.mk 4 "deadline"))
        none =
      Except.error (GeyserGrpcClientError.TonicStatus (Status.mk 4 "deadline")) ∧
    health_check
        (fun _ => Except.ok (RpcResponse.mk (HealthCheckResponse.mk 1))) =
      Except.ok (HealthCheckResponse.mk 1) :=
  ⟨unary_ops_contract.1 _ 7 _ rfl,
   unary_ops_contract.2.1 _ 7 _ rfl,
   unary_ops_contract.2.2.2.2.2.2.1 _ (some CommitmentLevel.confirmed) _ rfl,
   unary_ops_contract.2.2.2.2.2.2.2.1 _ none _ rfl,
   unary_ops_contract.2.2.2.2.2.2.2.2.2.2.2.2.1 _ _ rfl⟩

end YellowstoneClient
